import Mathlib

/-!
Shallow embedding of `src/drone_sketch.ino`, the ESP32 underwater-drone
water-quality firmware.  C `float`/`double` arithmetic is modelled over `ℚ`
(exact real-valued arithmetic of the same formulas), C `int`/`long` over `ℤ`.
Side effects are made explicit: the stream of `analogRead` results is an
environment `ℕ → ℤ`, the DS18B20 device reading is a `ℚ` input, serial
logging is a returned list of strings and an outbound HTTP request is a
returned value.
-/

namespace DroneSketch

/-- `const int ADC_RESOLUTION = 4095;` -/
def ADC_RESOLUTION : ℤ := 4095

/-- `const float V_REF = 3.3;` -/
def V_REF : ℚ := 3.3

/-- `const float PH_OFFSET = 0.0;` -/
def PH_OFFSET : ℚ := 0.0

/-- `const float PH_SLOPE = 14.0 / V_REF;` -/
def PH_SLOPE : ℚ := 14.0 / V_REF

/-- `const float NTU_MAX = 1000.0;` -/
def NTU_MAX : ℚ := 1000.0

/-- `const int JUMLAH_SAMPLING = 10;` -/
def JUMLAH_SAMPLING : ℕ := 10

/-- `DEVICE_DISCONNECTED_C` sentinel of the DallasTemperature library. -/
def DEVICE_DISCONNECTED_C : ℚ := -127

/-- `String HOST_NAME = "http://yoga.underwaterdrone.my.id/";` -/
def HOST_NAME : String := "http://yoga.underwaterdrone.my.id/"

/-- `String PATH_NAME = "/api.php";` -/
def PATH_NAME : String := "/api.php"

/-- `float adcKeVoltage(int nilaiADC)`: raw ADC code to voltage,
`(float)nilaiADC * V_REF / (float)ADC_RESOLUTION`. -/
def adcKeVoltage (nilaiADC : ℤ) : ℚ :=
  (nilaiADC : ℚ) * V_REF / (ADC_RESOLUTION : ℚ)

/-- `float konversiKePH(float tegangan)`: linear map then clamp to [0,14]. -/
def konversiKePH (tegangan : ℚ) : ℚ :=
  let ph := tegangan * PH_SLOPE + PH_OFFSET
  let ph := if ph < 0.0 then 0.0 else ph
  let ph := if ph > 14.0 then 14.0 else ph
  ph

/-- `float konversiKeNTU(float tegangan)`: inverse linear map then clamp to
[0,1000]. -/
def konversiKeNTU (tegangan : ℚ) : ℚ :=
  let ntu := NTU_MAX * (1.0 - tegangan / V_REF)
  let ntu := if ntu < 0.0 then 0.0 else ntu
  let ntu := if ntu > 1000.0 then 1000.0 else ntu
  ntu

/-- `String kategoriPH(float ph)`: acidity classification bands. -/
def kategoriPH (ph : ℚ) : String :=
  if ph < 4.0 then "Sangat Asam ⚠️"
  else if ph < 6.5 then "Asam"
  else if ph ≤ 8.5 then "Normal ✅"
  else if ph ≤ 11.0 then "Basa"
  else "Sangat Basa ⚠️"

/-- `String kategoriTurbidity(float ntu)`: turbidity classification bands. -/
def kategoriTurbidity (ntu : ℚ) : String :=
  if ntu < 5.0 then "Jernih ✅"
  else if ntu < 50.0 then "Sedikit Keruh"
  else if ntu < 200.0 then "Keruh"
  else if ntu < 500.0 then "Sangat Keruh ⚠️"
  else "Ekstrem Keruh 🚨"

end DroneSketch

namespace DroneSketch

/-- The pH conversion is exactly the clamp of the linear map. -/
lemma konversiKePH_eq (tegangan : ℚ) :
    konversiKePH tegangan = min 14 (max 0 (tegangan * PH_SLOPE + PH_OFFSET)) := by
  simp only [konversiKePH]
  norm_num
  split_ifs with h1 h2 <;> push_neg at *
  · norm_num at h2
  · rw [max_eq_left (le_of_lt h1), min_eq_right (by norm_num)]
  · rw [max_eq_right (by linarith), min_eq_left (by linarith)]
  · rw [max_eq_right (by linarith), min_eq_right (by linarith)]

/-- The NTU conversion is exactly the clamp of the inverse linear map. -/
lemma konversiKeNTU_eq (tegangan : ℚ) :
    konversiKeNTU tegangan = min 1000 (max 0 (NTU_MAX * (1 - tegangan / V_REF))) := by
  simp only [konversiKeNTU]
  norm_num
  split_ifs with h1 h2 <;> push_neg at *
  · norm_num at h2
  · rw [max_eq_left (le_of_lt h1), min_eq_right (by norm_num)]
  · rw [max_eq_right (by linarith), min_eq_left (by linarith)]
  · rw [max_eq_right (by linarith), min_eq_right (by linarith)]

/-- C1: `konversiKePH` computes the linear map `voltage * slope + offset`
clamped to [0,14]; for every input voltage the result is in [0,14]. -/
theorem konversiKePH_clamped (tegangan : ℚ) :
    konversiKePH tegangan = min 14 (max 0 (tegangan * PH_SLOPE + PH_OFFSET)) ∧
    0 ≤ konversiKePH tegangan ∧ konversiKePH tegangan ≤ 14 := by
  refine ⟨konversiKePH_eq tegangan, ?_, ?_⟩ <;> rw [konversiKePH_eq]
  · exact le_min (by norm_num) (le_max_left 0 _)
  · exact min_le_left 14 _

/-- C2: `konversiKeNTU` computes `NTU_MAX * (1 - voltage/V_REF)` clamped to
[0,1000]; the result is always in [0,1000], and at the endpoints
`konversiKeNTU 3.3 = 0` and `konversiKeNTU 0 = 1000`. -/
theorem konversiKeNTU_clamped (tegangan : ℚ) :
    konversiKeNTU tegangan = min 1000 (max 0 (NTU_MAX * (1 - tegangan / V_REF))) ∧
    0 ≤ konversiKeNTU tegangan ∧ konversiKeNTU tegangan ≤ 1000 ∧
    konversiKeNTU 3.3 = 0 ∧ konversiKeNTU 0 = 1000 := by
  refine ⟨konversiKeNTU_eq tegangan, ?_, ?_, ?_, ?_⟩
  · rw [konversiKeNTU_eq]
    exact le_min (by norm_num) (le_max_left 0 _)
  · rw [konversiKeNTU_eq]
    exact min_le_left 1000 _
  · norm_num [konversiKeNTU, NTU_MAX, V_REF]
  · norm_num [konversiKeNTU, NTU_MAX, V_REF]

/-- C3: over raw codes in [0,4095], `adcKeVoltage` computes
`raw * V_REF / ADC_RESOLUTION`, is monotone non-decreasing, and lands in
[0, 3.3]. -/
theorem adcKeVoltage_monotone_bounded (r1 r2 : ℤ) (hr1 : 0 ≤ r1) (h12 : r1 ≤ r2)
    (hr2 : r2 ≤ 4095) :
    adcKeVoltage r1 = (r1 : ℚ) * V_REF / (ADC_RESOLUTION : ℚ) ∧
    adcKeVoltage r1 ≤ adcKeVoltage r2 ∧
    0 ≤ adcKeVoltage r1 ∧ adcKeVoltage r2 ≤ 3.3 := by
  have c1 : (0 : ℚ) ≤ (r1 : ℚ) := by exact_mod_cast hr1
  have c12 : (r1 : ℚ) ≤ (r2 : ℚ) := by exact_mod_cast h12
  have c2 : (r2 : ℚ) ≤ 4095 := by exact_mod_cast hr2
  refine ⟨rfl, ?_, ?_, ?_⟩
  · unfold adcKeVoltage V_REF ADC_RESOLUTION
    push_cast
    rw [div_le_div_iff₀ (by norm_num) (by norm_num)]
    nlinarith
  · unfold adcKeVoltage V_REF ADC_RESOLUTION
    positivity
  · unfold adcKeVoltage V_REF ADC_RESOLUTION
    rw [div_le_iff₀ (by norm_num)]
    nlinarith

/-- Witness for C3 at the concrete raw codes 1000 and 4095. -/
theorem adcKeVoltage_monotone_bounded_witness :
    adcKeVoltage 1000 = (1000 : ℚ) * V_REF / (ADC_RESOLUTION : ℚ) ∧
    adcKeVoltage 1000 ≤ adcKeVoltage 4095 ∧
    0 ≤ adcKeVoltage 1000 ∧ adcKeVoltage 4095 ≤ 3.3 :=
  adcKeVoltage_monotone_bounded 1000 4095 (by norm_num) (by norm_num) (by norm_num)

/-- Band evaluation: below 4 the classifier answers "Sangat Asam". -/
lemma kategoriPH_band1 (ph : ℚ) (h : ph < 4) : kategoriPH ph = "Sangat Asam ⚠️" := by
  unfold kategoriPH
  split_ifs <;> first | rfl | (push_neg at *; linarith)

/-- Band evaluation: in [4, 6.5) the classifier answers "Asam". -/
lemma kategoriPH_band2 (ph : ℚ) (hl : 4 ≤ ph) (hu : ph < 6.5) :
    kategoriPH ph = "Asam" := by
  unfold kategoriPH
  split_ifs <;> first | rfl | (push_neg at *; linarith)

/-- Band evaluation: in [6.5, 8.5] the classifier answers "Normal". -/
lemma kategoriPH_band3 (ph : ℚ) (hl : 6.5 ≤ ph) (hu : ph ≤ 8.5) :
    kategoriPH ph = "Normal ✅" := by
  unfold kategoriPH
  split_ifs <;> first | rfl | (push_neg at *; linarith)

/-- Band evaluation: in (8.5, 11] the classifier answers "Basa". -/
lemma kategoriPH_band4 (ph : ℚ) (hl : 8.5 < ph) (hu : ph ≤ 11) :
    kategoriPH ph = "Basa" := by
  unfold kategoriPH
  split_ifs <;> first | rfl | (push_neg at *; linarith)

/-- Band evaluation: above 11 the classifier answers "Sangat Basa". -/
lemma kategoriPH_band5 (ph : ℚ) (h : 11 < ph) : kategoriPH ph = "Sangat Basa ⚠️" := by
  unfold kategoriPH
  split_ifs <;> first | rfl | (push_neg at *; linarith)

/-- C4 counterexample: the claim says every band is closed on its upper
bound except the last; but the upper bound 4 of the "very acidic" band is
classified "Asam", not "Sangat Asam", and the upper bound 6.5 of the
"acidic" band is classified "Normal", not "Asam". -/
theorem kategoriPH_open_upper_bounds :
    kategoriPH 4 = "Asam" ∧ kategoriPH 4 ≠ "Sangat Asam ⚠️" ∧
    kategoriPH 6.5 = "Normal ✅" ∧ kategoriPH 6.5 ≠ "Asam" := by
  refine ⟨?_, ?_, ?_, ?_⟩ <;> norm_num [kategoriPH] <;> decide

/-- C4 (amended): `kategoriPH` assigns exactly one band by the ordered
thresholds; the "very acidic" and "acidic" bands are open at their upper
bounds (strictly below 4 resp. 6.5), "normal" and "basic" are closed at
theirs (up to 8.5 resp. 11), the last band is open-ended; the five bands
are exhaustive and non-overlapping over ℚ. -/
theorem kategoriPH_partition (ph : ℚ) :
    (kategoriPH ph = "Sangat Asam ⚠️" ↔ ph < 4) ∧
    (kategoriPH ph = "Asam" ↔ 4 ≤ ph ∧ ph < 6.5) ∧
    (kategoriPH ph = "Normal ✅" ↔ 6.5 ≤ ph ∧ ph ≤ 8.5) ∧
    (kategoriPH ph = "Basa" ↔ 8.5 < ph ∧ ph ≤ 11) ∧
    (kategoriPH ph = "Sangat Basa ⚠️" ↔ 11 < ph) := by
  rcases lt_or_le ph 4 with h | hA
  · rw [kategoriPH_band1 ph h]
    have n1 : ¬ (4 : ℚ) ≤ ph := not_le.mpr h
    have n2 : ¬ (6.5 : ℚ) ≤ ph := not_le.mpr (by linarith)
    have n3 : ¬ (8.5 : ℚ) < ph := not_lt.mpr (by linarith)
    have n4 : ¬ (11 : ℚ) < ph := not_lt.mpr (by linarith)
    simp [h, n1, n2, n3, n4]
  rcases lt_or_le ph 6.5 with h | hB
  · rw [kategoriPH_band2 ph hA h]
    have n1 : ¬ ph < 4 := not_lt.mpr hA
    have n2 : ¬ (6.5 : ℚ) ≤ ph := not_le.mpr h
    have n3 : ¬ (8.5 : ℚ) < ph := not_lt.mpr (by linarith)
    have n4 : ¬ (11 : ℚ) < ph := not_lt.mpr (by linarith)
    simp [hA, h, n1, n2, n3, n4]
  rcases le_or_lt ph 8.5 with h | hC
  · rw [kategoriPH_band3 ph hB h]
    have n1 : ¬ ph < 4 := not_lt.mpr (by linarith)
    have n2 : ¬ ph < 6.5 := not_lt.mpr hB
    have n3 : ¬ (8.5 : ℚ) < ph := not_lt.mpr h
    have n4 : ¬ (11 : ℚ) < ph := not_lt.mpr (by linarith)
    simp [hB, h, n1, n2, n3, n4]
  rcases le_or_lt ph 11 with h | hD
  · rw [kategoriPH_band4 ph hC h]
    have n1 : ¬ ph < 4 := not_lt.mpr (by linarith)
    have n2 : ¬ ph < 6.5 := not_lt.mpr (by linarith)
    have n3 : ¬ ph ≤ 8.5 := not_le.mpr hC
    have n4 : ¬ (11 : ℚ) < ph := not_lt.mpr h
    simp [hC, h, n1, n2, n3, n4]
  · rw [kategoriPH_band5 ph hD]
    have n1 : ¬ ph < 4 := not_lt.mpr (by linarith)
    have n2 : ¬ ph < 6.5 := not_lt.mpr (by linarith)
    have n3 : ¬ ph ≤ 8.5 := not_le.mpr (by linarith)
    have n4 : ¬ ph ≤ 11 := not_le.mpr hD
    simp [hD, n1, n2, n3, n4]

/-- C5 counterexample: at voltage 1.65 the turbidity conversion yields
exactly 500, and `kategoriTurbidity 500` is "Ekstrem Keruh", not the
"Sangat Keruh" ("very turbid") band the claim names, because that band is
the strict inequality `ntu < 500.0`. -/
theorem kategoriTurbidity_at_500 :
    konversiKeNTU 1.65 = 500 ∧
    kategoriTurbidity (konversiKeNTU 1.65) = "Ekstrem Keruh 🚨" ∧
    kategoriTurbidity (konversiKeNTU 1.65) ≠ "Sangat Keruh ⚠️" := by
  have h : konversiKeNTU 1.65 = 500 := by
    norm_num [konversiKeNTU, NTU_MAX, V_REF]
  refine ⟨h, ?_, ?_⟩ <;> rw [h]
  · norm_num [kategoriTurbidity]
  · norm_num [kategoriTurbidity]
    decide

/-- C5 (amended): at voltage 1.65 the acidity conversion yields exactly 7,
which classifies as "Normal"; the turbidity conversion yields exactly 500,
which classifies as "Ekstrem Keruh" (the band above "Sangat Keruh", whose
upper bound 500 is excluded). -/
theorem voltage_midpoint_example :
    konversiKePH 1.65 = 7 ∧ kategoriPH (konversiKePH 1.65) = "Normal ✅" ∧
    konversiKeNTU 1.65 = 500 ∧
    kategoriTurbidity (konversiKeNTU 1.65) = "Ekstrem Keruh 🚨" := by
  have hph : konversiKePH 1.65 = 7 := by
    norm_num [konversiKePH, PH_SLOPE, PH_OFFSET, V_REF]
  have hntu : konversiKeNTU 1.65 = 500 := by
    norm_num [konversiKeNTU, NTU_MAX, V_REF]
  refine ⟨hph, ?_, hntu, ?_⟩
  · rw [hph]; norm_num [kategoriPH]
  · rw [hntu]; norm_num [kategoriTurbidity]

/-- `int bacaADCRataRata(int pin)` accumulator: `total`, summing
`JUMLAH_SAMPLING` successive `analogRead` results.  The stream of raw
readings is the environment `env : ℕ → ℤ`. -/
def totalSampel (env : ℕ → ℤ) : ℤ :=
  (List.range JUMLAH_SAMPLING).foldl (fun total i => total + env i) 0

/-- `int bacaADCRataRata(int pin)`: average of `JUMLAH_SAMPLING` readings,
`(int)(total / JUMLAH_SAMPLING)` with C's truncating division (`Int.tdiv`). -/
def bacaADCRataRata (env : ℕ → ℤ) : ℤ :=
  Int.tdiv (totalSampel env) (JUMLAH_SAMPLING : ℤ)

/-- The accumulator is the sum of the first ten readings. -/
lemma totalSampel_eq (env : ℕ → ℤ) :
    totalSampel env = env 0 + env 1 + env 2 + env 3 + env 4 + env 5 + env 6 +
      env 7 + env 8 + env 9 := by
  have hr : List.range JUMLAH_SAMPLING = [0, 1, 2, 3, 4, 5, 6, 7, 8, 9] := by rfl
  simp [totalSampel, hr]

/-- If every one of the ten samples lies in [lo, hi] with 0 ≤ lo, the
truncated average lies in [lo, hi] as well. -/
lemma bacaADCRataRata_between (env : ℕ → ℤ) (lo hi : ℤ) (hlo : 0 ≤ lo)
    (h : ∀ i, i < JUMLAH_SAMPLING → lo ≤ env i ∧ env i ≤ hi) :
    lo ≤ bacaADCRataRata env ∧ bacaADCRataRata env ≤ hi := by
  have hsum_lo : 10 * lo ≤ totalSampel env := by
    rw [totalSampel_eq]
    linarith [(h 0 (by decide)).1, (h 1 (by decide)).1, (h 2 (by decide)).1,
      (h 3 (by decide)).1, (h 4 (by decide)).1, (h 5 (by decide)).1,
      (h 6 (by decide)).1, (h 7 (by decide)).1, (h 8 (by decide)).1,
      (h 9 (by decide)).1]
  have hsum_hi : totalSampel env ≤ 10 * hi := by
    rw [totalSampel_eq]
    linarith [(h 0 (by decide)).2, (h 1 (by decide)).2, (h 2 (by decide)).2,
      (h 3 (by decide)).2, (h 4 (by decide)).2, (h 5 (by decide)).2,
      (h 6 (by decide)).2, (h 7 (by decide)).2, (h 8 (by decide)).2,
      (h 9 (by decide)).2]
  have h0 : 0 ≤ totalSampel env := le_trans (by linarith) hsum_lo
  unfold bacaADCRataRata
  have hJ : ((JUMLAH_SAMPLING : ℕ) : ℤ) = 10 := rfl
  rw [hJ, Int.tdiv_eq_ediv h0 (by decide)]
  constructor
  · rw [Int.le_ediv_iff_mul_le (by decide)]
    linarith
  · calc totalSampel env / 10 ≤ 10 * hi / 10 := Int.ediv_le_ediv (by decide) hsum_hi
      _ = hi := Int.mul_ediv_cancel_left hi (by decide)

/-- C6: `bacaADCRataRata` depends only on the first `JUMLAH_SAMPLING = 10`
readings of the analog channel (it reads exactly ten times), and on
non-negative samples it returns the floor of the sum of those ten samples
divided by 10. -/
theorem bacaADCRataRata_is_truncated_mean :
    (∀ env1 env2 : ℕ → ℤ, (∀ i, i < JUMLAH_SAMPLING → env1 i = env2 i) →
      bacaADCRataRata env1 = bacaADCRataRata env2) ∧
    (∀ env : ℕ → ℤ, (∀ i, i < JUMLAH_SAMPLING → 0 ≤ env i) →
      bacaADCRataRata env = Int.fdiv (env 0 + env 1 + env 2 + env 3 + env 4 +
        env 5 + env 6 + env 7 + env 8 + env 9) 10) := by
  constructor
  · intro env1 env2 h
    unfold bacaADCRataRata
    rw [totalSampel_eq, totalSampel_eq, h 0 (by decide), h 1 (by decide),
      h 2 (by decide), h 3 (by decide), h 4 (by decide), h 5 (by decide),
      h 6 (by decide), h 7 (by decide), h 8 (by decide), h 9 (by decide)]
  · intro env h
    have h0 : 0 ≤ totalSampel env := by
      rw [totalSampel_eq]
      linarith [h 0 (by decide), h 1 (by decide), h 2 (by decide),
        h 3 (by decide), h 4 (by decide), h 5 (by decide), h 6 (by decide),
        h 7 (by decide), h 8 (by decide), h 9 (by decide)]
    unfold bacaADCRataRata
    have hJ : ((JUMLAH_SAMPLING : ℕ) : ℤ) = 10 := rfl
    rw [hJ, Int.tdiv_eq_ediv h0 (by decide), ← Int.fdiv_eq_ediv _ (by decide),
      totalSampel_eq]

/-- Witness for C6 on the constant stream of sample value 7. -/
theorem bacaADCRataRata_is_truncated_mean_witness :
    bacaADCRataRata (fun _ => 7) =
      Int.fdiv ((7 : ℤ) + 7 + 7 + 7 + 7 + 7 + 7 + 7 + 7 + 7) 10 :=
  bacaADCRataRata_is_truncated_mean.2 (fun _ => 7) (fun i _ => by norm_num)

/-- C9: on ten samples each in [0,4095] the average is in [0,4095] and,
more precisely, between any common lower bound (≥ 0) and upper bound of
the samples; the accumulator `total` stays within [0, 40950], which is
well below 2^31, so the C `long` accumulator cannot overflow. -/
theorem bacaADCRataRata_no_overflow (env : ℕ → ℤ)
    (h : ∀ i, i < JUMLAH_SAMPLING → 0 ≤ env i ∧ env i ≤ 4095) :
    0 ≤ bacaADCRataRata env ∧ bacaADCRataRata env ≤ 4095 ∧
    0 ≤ totalSampel env ∧ totalSampel env ≤ 40950 ∧ (40950 : ℤ) < 2 ^ 31 ∧
    ∀ lo hi : ℤ, 0 ≤ lo → (∀ i, i < JUMLAH_SAMPLING → lo ≤ env i ∧ env i ≤ hi) →
      lo ≤ bacaADCRataRata env ∧ bacaADCRataRata env ≤ hi := by
  have main := bacaADCRataRata_between env 0 4095 (le_refl 0) h
  refine ⟨main.1, main.2, ?_, ?_, by norm_num,
    fun lo hi hlo hb => bacaADCRataRata_between env lo hi hlo hb⟩
  · rw [totalSampel_eq]
    linarith [(h 0 (by decide)).1, (h 1 (by decide)).1, (h 2 (by decide)).1,
      (h 3 (by decide)).1, (h 4 (by decide)).1, (h 5 (by decide)).1,
      (h 6 (by decide)).1, (h 7 (by decide)).1, (h 8 (by decide)).1,
      (h 9 (by decide)).1]
  · rw [totalSampel_eq]
    linarith [(h 0 (by decide)).2, (h 1 (by decide)).2, (h 2 (by decide)).2,
      (h 3 (by decide)).2, (h 4 (by decide)).2, (h 5 (by decide)).2,
      (h 6 (by decide)).2, (h 7 (by decide)).2, (h 8 (by decide)).2,
      (h 9 (by decide)).2]

/-- Witness for C9 on the constant stream of the maximal sample 4095. -/
theorem bacaADCRataRata_no_overflow_witness :
    0 ≤ bacaADCRataRata (fun _ => 4095) ∧ bacaADCRataRata (fun _ => 4095) ≤ 4095 ∧
    0 ≤ totalSampel (fun _ => 4095) ∧ totalSampel (fun _ => 4095) ≤ 40950 ∧
    (40950 : ℤ) < 2 ^ 31 ∧
    ∀ lo hi : ℤ, 0 ≤ lo →
      (∀ i, i < JUMLAH_SAMPLING → lo ≤ (fun _ => (4095 : ℤ)) i ∧
        (fun _ => (4095 : ℤ)) i ≤ hi) →
      lo ≤ bacaADCRataRata (fun _ => 4095) ∧ bacaADCRataRata (fun _ => 4095) ≤ hi :=
  bacaADCRataRata_no_overflow (fun _ => 4095) (fun i _ => by norm_num)

/-- The global sensor-reading variables of the sketch. -/
structure SensorState where
  nilaiPH : ℚ
  nilaiTurbidity : ℚ
  nilaiSuhu : ℚ
  teganganPH : ℚ
  teganganTurbidity : ℚ
  rawPH : ℤ
  rawTurbidity : ℤ

/-- `float bacaSuhuDS18B20()`: returns the DS18B20 device reading as-is
(the library hands back `DEVICE_DISCONNECTED_C` when the probe is absent). -/
def bacaSuhuDS18B20 (deviceReading : ℚ) : ℚ := deviceReading

/-- The sensor-reading block of `loop()` (lines 434-451): read and convert
both analog channels, read the temperature, and substitute 0.0 (plus a
serial warning, the returned `Bool`) when the DS18B20 sentinel shows up. -/
def sensorReadTick (phEnv turbEnv : ℕ → ℤ) (suhuDevice : ℚ) :
    SensorState × Bool :=
  let rawPH := bacaADCRataRata phEnv
  let teganganPH := adcKeVoltage rawPH
  let nilaiPH := konversiKePH teganganPH
  let rawTurbidity := bacaADCRataRata turbEnv
  let teganganTurbidity := adcKeVoltage rawTurbidity
  let nilaiTurbidity := konversiKeNTU teganganTurbidity
  let nilaiSuhu := bacaSuhuDS18B20 suhuDevice
  if nilaiSuhu = DEVICE_DISCONNECTED_C then
    ({ nilaiPH := nilaiPH, nilaiTurbidity := nilaiTurbidity, nilaiSuhu := 0.0,
       teganganPH := teganganPH, teganganTurbidity := teganganTurbidity,
       rawPH := rawPH, rawTurbidity := rawTurbidity }, true)
  else
    ({ nilaiPH := nilaiPH, nilaiTurbidity := nilaiTurbidity, nilaiSuhu := nilaiSuhu,
       teganganPH := teganganPH, teganganTurbidity := teganganTurbidity,
       rawPH := rawPH, rawTurbidity := rawTurbidity }, false)

/-- C7: when the one-wire read returns `DEVICE_DISCONNECTED_C`, the
sampling tick stores the default temperature 0.0, logs the warning, and
still computes and stores the pH and turbidity readings (processing is not
aborted). -/
theorem sensorReadTick_sentinel (phEnv turbEnv : ℕ → ℤ) (suhuDevice : ℚ)
    (h : suhuDevice = DEVICE_DISCONNECTED_C) :
    (sensorReadTick phEnv turbEnv suhuDevice).1.nilaiSuhu = 0 ∧
    (sensorReadTick phEnv turbEnv suhuDevice).2 = true ∧
    (sensorReadTick phEnv turbEnv suhuDevice).1.nilaiPH =
      konversiKePH (adcKeVoltage (bacaADCRataRata phEnv)) ∧
    (sensorReadTick phEnv turbEnv suhuDevice).1.nilaiTurbidity =
      konversiKeNTU (adcKeVoltage (bacaADCRataRata turbEnv)) := by
  subst h
  unfold sensorReadTick bacaSuhuDS18B20
  norm_num

/-- Witness for C7: a concrete tick with the probe disconnected. -/
theorem sensorReadTick_sentinel_witness :
    (sensorReadTick (fun _ => 0) (fun _ => 0) (-127)).1.nilaiSuhu = 0 ∧
    (sensorReadTick (fun _ => 0) (fun _ => 0) (-127)).2 = true ∧
    (sensorReadTick (fun _ => 0) (fun _ => 0) (-127)).1.nilaiPH =
      konversiKePH (adcKeVoltage (bacaADCRataRata (fun _ => 0))) ∧
    (sensorReadTick (fun _ => 0) (fun _ => 0) (-127)).1.nilaiTurbidity =
      konversiKeNTU (adcKeVoltage (bacaADCRataRata (fun _ => 0))) :=
  sensorReadTick_sentinel (fun _ => 0) (fun _ => 0) (-127) rfl

/-- Left-pad a digit string with zeros, for fixed-point formatting. -/
def padLeftZeros (s : String) (n : ℕ) : String :=
  String.mk (List.replicate (n - s.length) '0') ++ s

/-- Arduino `String(value, digits)`: fixed-point decimal rendering of a
float, rounding half away from zero as `Print::printFloat` does. -/
def fmtFixed (x : ℚ) (digits : ℕ) : String :=
  let scaled : ℤ := ⌊|x| * 10 ^ digits + 1 / 2⌋
  let ip := scaled / 10 ^ digits
  let fp := scaled % 10 ^ digits
  let sign := if x < 0 then "-" else ""
  if digits = 0 then sign ++ toString ip
  else sign ++ toString ip ++ "." ++ padLeftZeros (toString fp.toNat) digits

/-- An outbound HTTP request: `http.begin(url)` followed by `http.GET()`. -/
structure HttpRequest where
  method : String
  url : String

/-- `HTTP_CODE_OK` of the ESP32 HTTPClient library. -/
def HTTP_CODE_OK : ℤ := 200

/-- The query string built in `kirimDataKeServer` (lines 322-325). -/
def queryString (s : SensorState) : String :=
  "?kualitas_air=" ++ fmtFixed s.nilaiPH 2
    ++ "&tahan=" ++ fmtFixed s.nilaiTurbidity 1
    ++ "&udara=" ++ fmtFixed s.nilaiSuhu 2
    ++ "&daya_listrik=" ++ fmtFixed 100 2

/-- The four key-value pairs the query string encodes. -/
def queryPairs (s : SensorState) : List (String × String) :=
  [("kualitas_air", fmtFixed s.nilaiPH 2),
   ("tahan", fmtFixed s.nilaiTurbidity 1),
   ("udara", fmtFixed s.nilaiSuhu 2),
   ("daya_listrik", fmtFixed 100 2)]

/-- Render the non-leading key-value pairs of a query, `&key=value` each. -/
def renderAmp : List (String × String) → String
  | [] => ""
  | p :: rest => "&" ++ p.1 ++ "=" ++ p.2 ++ renderAmp rest

/-- Render a query: `?` then `key=value` pairs separated by `&`. -/
def renderQuery : List (String × String) → String
  | [] => ""
  | p :: rest => "?" ++ p.1 ++ "=" ++ p.2 ++ renderAmp rest

/-- The source's one concatenated query string is exactly the rendering of
the four key-value pairs. -/
lemma queryString_eq_renderQuery (s : SensorState) :
    queryString s = renderQuery (queryPairs s) := by
  simp only [queryString, renderQuery, renderAmp, queryPairs]
  rw [show (("?" ++ "kualitas_air") ++ "=" : String) = "?kualitas_air=" from rfl,
    show (("&" ++ "tahan") ++ "=" : String) = "&tahan=" from rfl,
    show (("&" ++ "udara") ++ "=" : String) = "&udara=" from rfl,
    show (("&" ++ "daya_listrik") ++ "=" : String) = "&daya_listrik=" from rfl]
  simp [String.append_assoc]

/-- `void kirimDataKeServer()`, request-construction view: when WiFi is
connected it issues one GET to the fixed host and path with the query
string of the latest readings; otherwise it sends nothing. -/
def kirimDataKeServer (wifiConnected : Bool) (s : SensorState) :
    Option HttpRequest :=
  if wifiConnected then
    some { method := "GET", url := HOST_NAME ++ PATH_NAME ++ queryString s }
  else none

/-- C8: on a send tick with WiFi up, the outbound request is a GET to the
fixed endpoint and its query string encodes exactly four key-value pairs:
the latest acidity, turbidity and temperature readings plus the hardcoded
power level 100.0; with WiFi down nothing is sent. -/
theorem kirimDataKeServer_request (s : SensorState) :
    kirimDataKeServer true s =
      some { method := "GET",
             url := HOST_NAME ++ PATH_NAME ++ renderQuery (queryPairs s) } ∧
    (queryPairs s).length = 4 ∧
    (queryPairs s).map Prod.fst = ["kualitas_air", "tahan", "udara", "daya_listrik"] ∧
    (queryPairs s).map Prod.snd =
      [fmtFixed s.nilaiPH 2, fmtFixed s.nilaiTurbidity 1, fmtFixed s.nilaiSuhu 2,
       fmtFixed 100 2] ∧
    kirimDataKeServer false s = none := by
  refine ⟨?_, rfl, rfl, rfl, rfl⟩
  rw [kirimDataKeServer, if_pos rfl, queryString_eq_renderQuery]

/-- `void kirimDataKeServer()` with its control flow made explicit: the
WiFi status check, the request, and the serial log lines chosen by the
HTTP outcome (`httpCode`, `payload` are the environment's responses).  The
global sensor state is threaded through; the source assigns none of it. -/
def kirimDataKeServerStep (wifiConnected : Bool) (httpCode : ℤ)
    (payload : String) (s : SensorState) :
    SensorState × List String × Option HttpRequest :=
  if wifiConnected then
    let req : HttpRequest :=
      { method := "GET", url := HOST_NAME ++ PATH_NAME ++ queryString s }
    let logs :=
      if 0 < httpCode then
        if httpCode = HTTP_CODE_OK then ["✅ Berhasil! Response: " ++ payload]
        else ["⚠️ HTTP Code: " ++ toString httpCode]
      else ["❌ Gagal! Error"]
    (s, logs, some req)
  else
    (s, ["❌ WiFi terputus! Tidak bisa mengirim data."], none)

/-- `const unsigned long DATA_SEND_INTERVAL = 5000;` -/
def DATA_SEND_INTERVAL : ℕ := 5000

/-- The timer globals of `loop()` together with the sensor globals. -/
structure GlobalState where
  sensors : SensorState
  lastSensorRead : ℕ
  lastDataSend : ℕ

/-- `unsigned long` subtraction `a - b` modulo 2^32, as on the ESP32. -/
def usub32 (a b : ℕ) : ℕ := (a % 2 ^ 32 + 2 ^ 32 - b % 2 ^ 32) % 2 ^ 32

/-- The send block of `loop()` (lines 460-463): when 5000 ms have elapsed,
stamp `lastDataSend` and run `kirimDataKeServer`. -/
def dataSendTick (currentMillis : ℕ) (wifiConnected : Bool) (httpCode : ℤ)
    (payload : String) (g : GlobalState) :
    GlobalState × List String × Option HttpRequest :=
  if DATA_SEND_INTERVAL ≤ usub32 currentMillis g.lastDataSend then
    let r := kirimDataKeServerStep wifiConnected httpCode payload g.sensors
    ({ g with sensors := r.1, lastDataSend := currentMillis % 2 ^ 32 },
     r.2.1, r.2.2)
  else (g, [], none)

/-- C10: the reporter never modifies the latest-reading globals: after a
send tick — whatever the WiFi status and HTTP outcome, and whether or not
the interval had elapsed — `nilaiPH`, `nilaiTurbidity`, `nilaiSuhu`,
`teganganPH`, `teganganTurbidity`, `rawPH` and `rawTurbidity` all equal
their values before the send. -/
theorem kirimDataKeServer_preserves_readings (currentMillis : ℕ)
    (wifiConnected : Bool) (httpCode : ℤ) (payload : String) (g : GlobalState) :
    (kirimDataKeServerStep wifiConnected httpCode payload g.sensors).1 =
      g.sensors ∧
    (dataSendTick currentMillis wifiConnected httpCode payload g).1.sensors.nilaiPH =
      g.sensors.nilaiPH ∧
    (dataSendTick currentMillis wifiConnected httpCode payload g).1.sensors.nilaiTurbidity =
      g.sensors.nilaiTurbidity ∧
    (dataSendTick currentMillis wifiConnected httpCode payload g).1.sensors.nilaiSuhu =
      g.sensors.nilaiSuhu ∧
    (dataSendTick currentMillis wifiConnected httpCode payload g).1.sensors.teganganPH =
      g.sensors.teganganPH ∧
    (dataSendTick currentMillis wifiConnected httpCode payload g).1.sensors.teganganTurbidity =
      g.sensors.teganganTurbidity ∧
    (dataSendTick currentMillis wifiConnected httpCode payload g).1.sensors.rawPH =
      g.sensors.rawPH ∧
    (dataSendTick currentMillis wifiConnected httpCode payload g).1.sensors.rawTurbidity =
      g.sensors.rawTurbidity := by
  have hstep : (kirimDataKeServerStep wifiConnected httpCode payload g.sensors).1 =
      g.sensors := by
    unfold kirimDataKeServerStep
    split_ifs <;> rfl
  have htick : (dataSendTick currentMillis wifiConnected httpCode payload g).1.sensors =
      g.sensors := by
    unfold dataSendTick
    split_ifs <;> simp [hstep]
  exact ⟨hstep, by rw [htick], by rw [htick], by rw [htick], by rw [htick],
    by rw [htick], by rw [htick], by rw [htick]⟩

end DroneSketch
